import Mathlib

/-!
Verification development for `field_report_main.py`, a Streamlit app that
lets a user upload a construction invoice/estimate image, have a multimodal
model assign cost codes, chat about the analysis, and download the transcript
as a PDF.  The script's session-state lifecycle, its event handlers and its
PDF story construction are embedded as Lean functions; the missing helper
module `gemini_helper` (imported at line 4 of the script but not part of the
snapshot) is modelled from the specification.
-/

/-- Author role of a transcript message: the `role` key of the dicts appended
to `st.session_state.messages` (lines 77, 91, 100 use the literals
`assistant` and `user`). -/
inductive Role where
  | user
  | assistant
deriving DecidableEq

/-- One transcript entry, a `role`/`content` dict.  `fromAnalysis` is ghost
instrumentation recording whether the entry was appended by the
Analyze-button handler (line 77) rather than by the chat handler; the Python
dict has only the `role` and `content` keys. -/
structure Message where
  role : Role
  content : String
  fromAnalysis : Bool
deriving DecidableEq

/-- Conversation handles are opaque; the embedding numbers them so that
freshness of `start_chat` results is expressible. -/
abbrev Conv := Nat

/-- Uploaded images are opaque to the core; the embedding only passes them
through to the model client. -/
abbrev Image := Nat

/-- The four `st.session_state` keys used by the script, viewed as a partial
key store: `none` in the outer layer means the key is absent, as tested by
the `not in st.session_state` checks of lines 22-29. -/
structure RawSessionState where
  chat : Option (Option Conv)
  messages : Option (List Message)
  image_analyzed : Option Bool
  current_image : Option (Option Image)
deriving DecidableEq

/-- Lines 22-29 of the script: for each of the four session keys, store the
default value if the key is absent, and leave it alone otherwise. -/
def get_or_init (s : RawSessionState) : RawSessionState :=
  { chat := some (s.chat.getD none),
    messages := some (s.messages.getD []),
    image_analyzed := some (s.image_analyzed.getD false),
    current_image := some (s.current_image.getD none) }

/-- A browser session before the script has ever run: no key exists. -/
def emptyRawState : RawSessionState :=
  { chat := none, messages := none, image_analyzed := none,
    current_image := none }

/-- Session state once the init block has run (all keys present), plus
`nextConv`, a ghost allocator numbering the conversation handles handed out
by `start_chat`. -/
structure SessionState where
  chat : Option Conv
  messages : List Message
  image_analyzed : Bool
  current_image : Option Image
  nextConv : Nat
deriving DecidableEq

/-- The state right after the init block of the first run of the script:
every field holds its default from lines 22-29. -/
def initState : SessionState :=
  { chat := none, messages := [], image_analyzed := false,
    current_image := none, nextConv := 0 }

/-- Error taxonomy of the external collaborators.  Modelled from the spec:
credential errors (missing/invalid API key), transport/model errors, and
decode errors (uploaded bytes that are not a valid image, surfaced before
any model call) are the failure kinds the core can observe. -/
inductive GeminiError where
  | credential
  | transport
  | decode
deriving DecidableEq

/-- Behaviour of the external model client at the `client.converse` boundary,
abstracted as response functions; any call may fail.  Modelled from the spec:
the client itself is out of scope and only its interface is fixed. -/
structure ModelOracle where
  analyzeResult : Image → Conv → Except GeminiError String
  sendResult : Conv → String → Except GeminiError String

/-- Modelled from the spec: `gemini_helper.GeminiInspector`, the model facade
imported by the script but missing from the snapshot.  It holds an optional
API credential and is constructible with or without one. -/
structure GeminiInspector where
  api_key : Option String
deriving DecidableEq

/-- Modelled from the spec: the no-credential construction `GeminiInspector()`
used at line 38 when the sidebar key field is empty. -/
def GeminiInspector.mkDefault : GeminiInspector := { api_key := none }

/-- Lines 34-38 of the script: the sidebar builds the Inspector from the key
field, falling back to the no-argument constructor when the field is empty
(the empty string is falsy in Python). -/
def mkInspector (apiKeyField : String) : GeminiInspector :=
  if apiKeyField = "" then GeminiInspector.mkDefault
  else { api_key := some apiKeyField }

/-- Modelled from the spec: `start_chat` creates a new, empty conversation
context; the embedding allocates the next unused handle number. -/
def GeminiInspector.start_chat (_insp : GeminiInspector) (next : Nat) :
    Conv × Nat :=
  (next, next + 1)

/-- Modelled from the spec: `analyze_image` sends the image with the built-in
cost-coding prompt as a turn of the given conversation.  With no credential
configured the call fails with a credential-kind error; otherwise the
client's outcome is returned verbatim. -/
def GeminiInspector.analyze_image (insp : GeminiInspector) (o : ModelOracle)
    (img : Image) (conv : Conv) : Except GeminiError String :=
  match insp.api_key with
  | none => .error .credential
  | some _ => o.analyzeResult img conv

/-- Modelled from the spec: `send_message` sends a plain follow-up turn into
an existing conversation.  With no credential configured the call fails with
a credential-kind error; otherwise the client's outcome is returned
verbatim. -/
def GeminiInspector.send_message (insp : GeminiInspector) (o : ModelOracle)
    (conv : Conv) (text : String) : Except GeminiError String :=
  match insp.api_key with
  | none => .error .credential
  | some _ => o.sendResult conv text

/-- The append operation on the store, as performed by
`st.session_state.messages.append(...)` at lines 77, 91 and 100: one message
pushed at the end of the list. -/
def SessionState.append (s : SessionState) (role : Role) (content : String)
    (tag : Bool) : SessionState :=
  { s with messages := s.messages ++ [⟨role, content, tag⟩] }

/-- A sequence of `append` calls applied in order. -/
def applyAppends (s : SessionState) : List (Role × String × Bool) → SessionState
  | [] => s
  | c :: rest => applyAppends (s.append c.1 c.2.1 c.2.2) rest

/-- Lines 52-53 of the script: on every run, if `st.session_state.chat` is
`None`, replace it with a fresh `inspector.start_chat()`. -/
def ensureChat (insp : GeminiInspector) (s : SessionState) : SessionState :=
  match s.chat with
  | some _ => s
  | none =>
    let r := insp.start_chat s.nextConv
    { s with chat := some r.1, nextConv := r.2 }

/-- Lines 41-45, the Clear Chat History button handler: empty the messages,
start a fresh conversation, clear the analyzed flag, and rerun.  The
uploaded image in `current_image` is not touched. -/
def clearChatPass (insp : GeminiInspector) (s : SessionState) : SessionState :=
  let r := insp.start_chat s.nextConv
  { s with messages := [], chat := some r.1, image_analyzed := false,
           nextConv := r.2 }

/-- Which Inspector operations a render pass invoked (ghost trace). -/
inductive InspectorCall where
  | startChat
  | analyzeImage
  | sendMessage
deriving DecidableEq

/-- What the interaction rendered to the user in place of a reply. -/
inductive Outcome where
  | nothing
  | reply (text : String)
  | failure (e : GeminiError)
deriving DecidableEq

/-- Lines 59-79, the Analyze Invoice/Estimate button handler, entered with
the uploaded image decoded.  The button is only rendered while
`image_analyzed` is false (line 65).  The handler stores the image in
`current_image` (line 71) before calling `analyze_image` (line 74); on
success it appends the report as an assistant message (line 77) and sets the
flag (line 78); a failure of the model call aborts the pass there, leaving
the rest of the state as it stood. -/
def analyzePass (insp : GeminiInspector) (o : ModelOracle) (img : Image)
    (s : SessionState) : SessionState × Outcome × List InspectorCall :=
  if s.image_analyzed then (s, .nothing, [])
  else
    let s1 := { s with current_image := some img }
    match s1.chat with
    | none => (s1, .nothing, [])
    | some conv =>
      match insp.analyze_image o img conv with
      | .error e => (s1, .failure e, [.analyzeImage])
      | .ok report =>
        ({ s1.append Role.assistant report true with image_analyzed := true },
         .reply report, [.analyzeImage])

/-- Lines 88-100, the chat input handler.  The input is only rendered once
`image_analyzed` is true (line 88).  The handler appends the user turn
(line 91) before calling `send_message` (line 98); on success the reply is
appended as an assistant message (line 100); a failure of the model call
aborts the pass there, with the user turn already appended. -/
def chatPass (insp : GeminiInspector) (o : ModelOracle) (prompt : String)
    (s : SessionState) : SessionState × Outcome × List InspectorCall :=
  if s.image_analyzed then
    let s1 := s.append Role.user prompt false
    match s1.chat with
    | none => (s1, .nothing, [])
    | some conv =>
      match insp.send_message o conv prompt with
      | .error e => (s1, .failure e, [.sendMessage])
      | .ok response =>
        (s1.append Role.assistant response false, .reply response,
         [.sendMessage])
  else (s, .nothing, [])

/-- One user interaction driving one render pass of the script.  The
`analyze` payload is the uploaded image already decoded at line 61;
`uploadDecodeFail` is a pass whose uploaded bytes fail to decode there
(`Image.open` raises), which aborts the pass before any handler runs.
Whether an upload decodes is environmental: the decode boundary is an
out-of-scope collaborator, so the two cases arrive as distinct events. -/
inductive Event where
  | rerender
  | clearChat
  | analyze (img : Image)
  | chatSubmit (prompt : String)
  | uploadDecodeFail
deriving DecidableEq

/-- Ghost trace of the `start_chat` call line 52 makes when the handle is
still absent. -/
def ensureCalls (s : SessionState) : List InspectorCall :=
  match s.chat with
  | none => [.startChat]
  | some _ => []

/-- One render pass of the script driven by one interaction: the sidebar
handler runs first (a clear-chat click reruns immediately, before line 52),
every other pass runs the line 52-53 chat initialization and then reaches
line 61 — where a failing decode of the uploaded bytes aborts the pass —
and at most one of the two model-calling handlers.  Returns the
post-interaction state, the rendered outcome, and the ghost trace of
Inspector calls made. -/
def renderPass (insp : GeminiInspector) (o : ModelOracle) (ev : Event)
    (s : SessionState) : SessionState × Outcome × List InspectorCall :=
  match ev with
  | .clearChat => (clearChatPass insp s, .nothing, [.startChat])
  | .rerender => (ensureChat insp s, .nothing, ensureCalls s)
  | .analyze img =>
    let r := analyzePass insp o img (ensureChat insp s)
    (r.1, r.2.1, ensureCalls s ++ r.2.2)
  | .chatSubmit prompt =>
    let r := chatPass insp o prompt (ensureChat insp s)
    (r.1, r.2.1, ensureCalls s ++ r.2.2)
  | .uploadDecodeFail => (ensureChat insp s, .failure .decode, ensureCalls s)

/-- Session states reachable across render passes from the initial state.
Each pass may use a different inspector (the user can edit the API key field
between interactions) and any client behaviour. -/
inductive Reachable : SessionState → Prop where
  | init : Reachable initState
  | step (s : SessionState) (insp : GeminiInspector) (o : ModelOracle)
      (ev : Event) : Reachable s → Reachable (renderPass insp o ev s).1

/-- Inductive invariant of the reachable states: the analyzed flag tracks
the presence of an analysis report, the transcript is empty while the flag
is down, a non-empty transcript opens with an assistant turn, and the active
handle was allocated below the ghost counter. -/
def SessionInv (s : SessionState) : Prop :=
  (s.image_analyzed = true ↔
    ∃ m ∈ s.messages, m.role = Role.assistant ∧ m.fromAnalysis = true) ∧
  (s.image_analyzed = false → s.messages = []) ∧
  (∀ m, s.messages.head? = some m → m.role = Role.assistant) ∧
  (∀ c, s.chat = some c → c < s.nextConv)

/-- A model client that always replies, used for concrete runs. -/
def okOracle : ModelOracle :=
  { analyzeResult := fun _ _ => .ok "report",
    sendResult := fun _ _ => .ok "reply" }

/-- An inspector holding a credential, used for concrete runs. -/
def inspWithKey : GeminiInspector := { api_key := some "k" }

/-- The state after one successful analysis of image 0 from the initial
state: the handle 0 was allocated on the way, the report is the sole
message, and the flag is up. -/
def stateA : SessionState :=
  { chat := some 0, messages := [⟨Role.assistant, "report", true⟩],
    image_analyzed := true, current_image := some 0, nextConv := 1 }

/-- Text colours used by the PDF styles (line 10 imports black and blue). -/
inductive PdfColor where
  | black
  | blue
deriving DecidableEq

/-- A reportlab paragraph style as far as the script configures one:
name, parent style, text colour and font (lines 127-138). -/
structure ParaStyle where
  styleName : String
  parent : String
  textColor : PdfColor
  fontName : String
deriving DecidableEq

/-- Lines 127-132: the style for user turns, bold blue on the Normal
parent. -/
def user_style : ParaStyle :=
  { styleName := "UserStyle", parent := "Normal", textColor := .blue,
    fontName := "Helvetica-Bold" }

/-- Lines 133-138: the style for assistant turns, plain black on the Normal
parent. -/
def assistant_style : ParaStyle :=
  { styleName := "AssistantStyle", parent := "Normal", textColor := .black,
    fontName := "Helvetica" }

/-- The sample stylesheet's Title style used at line 145; its attributes
beyond identity are owned by the external library and not inspected by the
script. -/
def title_style : ParaStyle :=
  { styleName := "Title", parent := "Normal", textColor := .black,
    fontName := "Helvetica-Bold" }

/-- Line 151: `user_style if msg['role'] == 'user' else assistant_style`. -/
def roleStyle (r : Role) : ParaStyle :=
  match r with
  | .user => user_style
  | .assistant => assistant_style

/-- The `.upper()` of the role string used in the label at line 154. -/
def Role.upper (r : Role) : String :=
  match r with
  | .user => "USER"
  | .assistant => "ASSISTANT"

/-- A flowable of the PDF story: a styled paragraph or a spacer. -/
inductive Flowable where
  | para (text : String) (style : ParaStyle)
  | spacer (width : Nat) (height : Nat)
deriving DecidableEq

/-- Page geometry of the document (line 141): letter page size and the four
fixed margins, all in points. -/
structure DocGeometry where
  pagesize : Nat × Nat
  rightMargin : Nat
  leftMargin : Nat
  topMargin : Nat
  bottomMargin : Nat
deriving DecidableEq

/-- The letter page size constant, 612 x 792 points. -/
def letterSize : Nat × Nat := (612, 792)

/-- The geometry passed to SimpleDocTemplate at line 141. -/
def docGeometry : DocGeometry :=
  { pagesize := letterSize, rightMargin := 72, leftMargin := 72,
    topMargin := 72, bottomMargin := 18 }

/-- Lines 150-156: the flowables appended to the story for one message: the
role label and the content, both in the role's style, and a 1 x 6 spacer. -/
def msgFlowables (m : Message) : List Flowable :=
  [ .para (m.role.upper ++ ":") (roleStyle m.role),
    .para m.content (roleStyle m.role),
    .spacer 1 6 ]

/-- The per-message part of the story, lines 149-156, in transcript order. -/
def docBlocks : List Message → List Flowable
  | [] => []
  | m :: rest => msgFlowables m ++ docBlocks rest

/-- Lines 144-146: the title paragraph and the 1 x 12 spacer opening the
story. -/
def titleFlowables : List Flowable :=
  [ .para "Construction Invoice/Estimate Analysis Report" title_style,
    .spacer 1 12 ]

/-- The full PDF story built at lines 142-156 as a function of the message
list: title block first, then one block per message in order. -/
def render_document (msgs : List Message) : List Flowable :=
  titleFlowables ++ docBlocks msgs

/-- The document build of lines 141-159 as a pure function: the fixed page
geometry together with the story. -/
def build_doc (msgs : List Message) : DocGeometry × List Flowable :=
  (docGeometry, render_document msgs)

lemma ensureChat_of_some (insp : GeminiInspector) (s : SessionState) (c : Conv)
    (h : s.chat = some c) : ensureChat insp s = s := by
  unfold ensureChat; rw [h]

lemma ensureChat_of_none (insp : GeminiInspector) (s : SessionState)
    (h : s.chat = none) :
    ensureChat insp s =
      { s with chat := some s.nextConv, nextConv := s.nextConv + 1 } := by
  unfold ensureChat; rw [h]; rfl

lemma ensureChat_messages (insp : GeminiInspector) (s : SessionState) :
    (ensureChat insp s).messages = s.messages := by
  cases h : s.chat with
  | none => rw [ensureChat_of_none insp s h]
  | some c => rw [ensureChat_of_some insp s c h]

lemma ensureChat_flag (insp : GeminiInspector) (s : SessionState) :
    (ensureChat insp s).image_analyzed = s.image_analyzed := by
  cases h : s.chat with
  | none => rw [ensureChat_of_none insp s h]
  | some c => rw [ensureChat_of_some insp s c h]

lemma ensureChat_image (insp : GeminiInspector) (s : SessionState) :
    (ensureChat insp s).current_image = s.current_image := by
  cases h : s.chat with
  | none => rw [ensureChat_of_none insp s h]
  | some c => rw [ensureChat_of_some insp s c h]

lemma analyzePass_of_true (insp : GeminiInspector) (o : ModelOracle)
    (img : Image) (s : SessionState) (h : s.image_analyzed = true) :
    analyzePass insp o img s = (s, .nothing, []) := by
  unfold analyzePass; rw [h]; simp

lemma analyzePass_none (insp : GeminiInspector) (o : ModelOracle)
    (img : Image) (s : SessionState) (hf : s.image_analyzed = false)
    (hc : s.chat = none) :
    analyzePass insp o img s =
      ({ s with current_image := some img }, .nothing, []) := by
  unfold analyzePass; rw [hf]; simp [hc]

lemma analyzePass_err (insp : GeminiInspector) (o : ModelOracle)
    (img : Image) (s : SessionState) (conv : Conv) (e : GeminiError)
    (hf : s.image_analyzed = false) (hc : s.chat = some conv)
    (hr : insp.analyze_image o img conv = .error e) :
    analyzePass insp o img s =
      ({ s with current_image := some img }, .failure e, [.analyzeImage]) := by
  unfold analyzePass; rw [hf]; simp [hc, hr]

lemma analyzePass_ok (insp : GeminiInspector) (o : ModelOracle)
    (img : Image) (s : SessionState) (conv : Conv) (report : String)
    (hf : s.image_analyzed = false) (hc : s.chat = some conv)
    (hr : insp.analyze_image o img conv = .ok report) :
    analyzePass insp o img s =
      ({ s with
          messages := s.messages ++ [⟨Role.assistant, report, true⟩],
          image_analyzed := true, current_image := some img },
       .reply report, [.analyzeImage]) := by
  unfold analyzePass; rw [hf]; simp [hc, hr, SessionState.append]

lemma chatPass_of_false (insp : GeminiInspector) (o : ModelOracle)
    (p : String) (s : SessionState) (hf : s.image_analyzed = false) :
    chatPass insp o p s = (s, .nothing, []) := by
  unfold chatPass; rw [hf]; simp

lemma chatPass_none (insp : GeminiInspector) (o : ModelOracle)
    (p : String) (s : SessionState) (hf : s.image_analyzed = true)
    (hc : s.chat = none) :
    chatPass insp o p s =
      ({ s with messages := s.messages ++ [⟨Role.user, p, false⟩] },
       .nothing, []) := by
  unfold chatPass; rw [hf]; simp [hc, SessionState.append, hf]

lemma chatPass_err (insp : GeminiInspector) (o : ModelOracle)
    (p : String) (s : SessionState) (conv : Conv) (e : GeminiError)
    (hf : s.image_analyzed = true) (hc : s.chat = some conv)
    (hr : insp.send_message o conv p = .error e) :
    chatPass insp o p s =
      ({ s with messages := s.messages ++ [⟨Role.user, p, false⟩] },
       .failure e, [.sendMessage]) := by
  unfold chatPass; rw [hf]; simp [hc, hr, SessionState.append, hf]

lemma chatPass_ok (insp : GeminiInspector) (o : ModelOracle)
    (p : String) (s : SessionState) (conv : Conv) (response : String)
    (hf : s.image_analyzed = true) (hc : s.chat = some conv)
    (hr : insp.send_message o conv p = .ok response) :
    chatPass insp o p s =
      ({ s with
          messages := s.messages ++
            [⟨Role.user, p, false⟩, ⟨Role.assistant, response, false⟩] },
       .reply response, [.sendMessage]) := by
  unfold chatPass; rw [hf]; simp [hc, hr, SessionState.append, hf]

lemma renderPass_clear (insp : GeminiInspector) (o : ModelOracle)
    (s : SessionState) :
    renderPass insp o Event.clearChat s =
      (clearChatPass insp s, .nothing, [.startChat]) := rfl

lemma renderPass_rerender (insp : GeminiInspector) (o : ModelOracle)
    (s : SessionState) :
    renderPass insp o Event.rerender s =
      (ensureChat insp s, .nothing, ensureCalls s) := rfl

lemma renderPass_uploadFail (insp : GeminiInspector) (o : ModelOracle)
    (s : SessionState) :
    renderPass insp o Event.uploadDecodeFail s =
      (ensureChat insp s, .failure .decode, ensureCalls s) := rfl

lemma renderPass_analyze (insp : GeminiInspector) (o : ModelOracle)
    (img : Image) (s : SessionState) :
    renderPass insp o (Event.analyze img) s =
      ((analyzePass insp o img (ensureChat insp s)).1,
       (analyzePass insp o img (ensureChat insp s)).2.1,
       ensureCalls s ++ (analyzePass insp o img (ensureChat insp s)).2.2) :=
  rfl

lemma renderPass_chat (insp : GeminiInspector) (o : ModelOracle)
    (p : String) (s : SessionState) :
    renderPass insp o (Event.chatSubmit p) s =
      ((chatPass insp o p (ensureChat insp s)).1,
       (chatPass insp o p (ensureChat insp s)).2.1,
       ensureCalls s ++ (chatPass insp o p (ensureChat insp s)).2.2) :=
  rfl

lemma sessionInv_init : SessionInv initState := by
  refine ⟨?_, ?_, ?_, ?_⟩
  · simp [initState]
  · intro; rfl
  · intro m hm; simp [initState] at hm
  · intro c hc; simp [initState] at hc

lemma sessionInv_ensure (insp : GeminiInspector) (s : SessionState)
    (h : SessionInv s) : SessionInv (ensureChat insp s) := by
  obtain ⟨h1, h2, h3, h4⟩ := h
  cases hc : s.chat with
  | some c => rw [ensureChat_of_some insp s c hc]; exact ⟨h1, h2, h3, h4⟩
  | none =>
    rw [ensureChat_of_none insp s hc]
    refine ⟨h1, h2, h3, ?_⟩
    intro c hcx
    have hcx2 : some s.nextConv = some c := hcx
    have he : s.nextConv = c := Option.some.inj hcx2
    show c < s.nextConv + 1
    rw [he]
    exact Nat.lt_succ_self c

lemma sessionInv_clear (insp : GeminiInspector) (s : SessionState)
    (_h : SessionInv s) : SessionInv (clearChatPass insp s) := by
  refine ⟨?_, ?_, ?_, ?_⟩
  · simp [clearChatPass]
  · intro; rfl
  · intro m hm
    have hm2 : ([] : List Message).head? = some m := hm
    cases hm2
  · intro c hcx
    have hcx2 : some s.nextConv = some c := hcx
    have he : s.nextConv = c := Option.some.inj hcx2
    show c < s.nextConv + 1
    rw [he]
    exact Nat.lt_succ_self c

lemma sessionInv_extend (s : SessionState) (h : SessionInv s)
    (hf : s.image_analyzed = true) (extra : List Message) :
    SessionInv { s with messages := s.messages ++ extra } := by
  obtain ⟨h1, h2, h3, h4⟩ := h
  have hne : s.messages ≠ [] := by
    intro hx
    obtain ⟨m, hm, _, _⟩ := h1.mp hf
    rw [hx] at hm
    cases hm
  refine ⟨?_, ?_, ?_, h4⟩
  · constructor
    · intro _
      obtain ⟨m, hm, hma, hmf⟩ := h1.mp hf
      exact ⟨m, List.mem_append_left extra hm, hma, hmf⟩
    · intro _
      exact hf
  · intro hx
    have hx2 : s.image_analyzed = false := hx
    rw [hf] at hx2
    cases hx2
  · intro m hm
    have hm2 : (s.messages ++ extra).head? = some m := hm
    cases hl : s.messages with
    | nil => exact absurd hl hne
    | cons a t =>
      rw [hl] at hm2
      simp only [List.cons_append, List.head?_cons, Option.some.injEq] at hm2
      exact hm2 ▸ h3 a (by rw [hl]; rfl)

lemma sessionInv_analyze (insp : GeminiInspector) (o : ModelOracle)
    (img : Image) (s : SessionState) (h : SessionInv s) :
    SessionInv (analyzePass insp o img s).1 := by
  obtain ⟨h1, h2, h3, h4⟩ := h
  cases hf : s.image_analyzed with
  | true =>
    rw [analyzePass_of_true insp o img s hf]
    exact ⟨h1, h2, h3, h4⟩
  | false =>
    have hmsgs : s.messages = [] := h2 hf
    cases hc : s.chat with
    | none =>
      rw [analyzePass_none insp o img s hf hc]
      exact ⟨h1, h2, h3, h4⟩
    | some conv =>
      cases hr : insp.analyze_image o img conv with
      | error e =>
        rw [analyzePass_err insp o img s conv e hf hc hr]
        exact ⟨h1, h2, h3, h4⟩
      | ok report =>
        rw [analyzePass_ok insp o img s conv report hf hc hr, hmsgs]
        refine ⟨?_, ?_, ?_, ?_⟩
        · simp
        · intro hx
          have hx2 : (true : Bool) = false := hx
          cases hx2
        · intro m hm
          have hm2 : (([] ++ [(⟨Role.assistant, report, true⟩ : Message)] :
              List Message)).head? = some m := hm
          simp only [List.nil_append, List.head?_cons,
            Option.some.injEq] at hm2
          rw [← hm2]
        · intro c hcx
          exact h4 c hcx

lemma sessionInv_chat (insp : GeminiInspector) (o : ModelOracle)
    (p : String) (s : SessionState) (h : SessionInv s) :
    SessionInv (chatPass insp o p s).1 := by
  cases hf : s.image_analyzed with
  | false =>
    rw [chatPass_of_false insp o p s hf]
    exact h
  | true =>
    cases hc : s.chat with
    | none =>
      rw [chatPass_none insp o p s hf hc]
      exact sessionInv_extend s h hf _
    | some conv =>
      cases hr : insp.send_message o conv p with
      | error e =>
        rw [chatPass_err insp o p s conv e hf hc hr]
        exact sessionInv_extend s h hf _
      | ok response =>
        rw [chatPass_ok insp o p s conv response hf hc hr]
        exact sessionInv_extend s h hf _

lemma sessionInv_step (insp : GeminiInspector) (o : ModelOracle) (ev : Event)
    (s : SessionState) (h : SessionInv s) :
    SessionInv (renderPass insp o ev s).1 := by
  cases ev with
  | rerender => exact sessionInv_ensure insp s h
  | clearChat => exact sessionInv_clear insp s h
  | analyze img =>
    exact sessionInv_analyze insp o img _ (sessionInv_ensure insp s h)
  | chatSubmit p =>
    exact sessionInv_chat insp o p _ (sessionInv_ensure insp s h)
  | uploadDecodeFail => exact sessionInv_ensure insp s h

lemma reachable_inv (s : SessionState) (h : Reachable s) : SessionInv s := by
  induction h with
  | init => exact sessionInv_init
  | step s insp o ev _ ih => exact sessionInv_step insp o ev s ih

lemma ensureChat_chat (insp : GeminiInspector) (s : SessionState) :
    ∃ c, (ensureChat insp s).chat = some c := by
  cases hc : s.chat with
  | none =>
    refine ⟨s.nextConv, ?_⟩
    rw [ensureChat_of_none insp s hc]
  | some c =>
    refine ⟨c, ?_⟩
    rw [ensureChat_of_some insp s c hc]
    exact hc

lemma chatPass_flag (insp : GeminiInspector) (o : ModelOracle) (p : String)
    (s : SessionState) :
    (chatPass insp o p s).1.image_analyzed = s.image_analyzed := by
  cases hf : s.image_analyzed with
  | false => rw [chatPass_of_false insp o p s hf, hf]
  | true =>
    cases hc : s.chat with
    | none => rw [chatPass_none insp o p s hf hc, hf]
    | some conv =>
      cases hr : insp.send_message o conv p with
      | error e => rw [chatPass_err insp o p s conv e hf hc hr, hf]
      | ok response => rw [chatPass_ok insp o p s conv response hf hc hr, hf]

lemma reachable_stateA : Reachable stateA := by
  have h := Reachable.step initState inspWithKey okOracle (Event.analyze 0)
    Reachable.init
  have he : (renderPass inspWithKey okOracle (Event.analyze 0) initState).1 =
      stateA := rfl
  rw [he] at h
  exact h

/-- C1: in every reachable session state, `image_analyzed` is true exactly
when `messages` holds an assistant-authored entry produced by the
image-analysis handler; moreover a render pass raises the flag only on an
analyze interaction, and lowers it only on a clear-chat interaction, which
simultaneously empties `messages`. -/
theorem image_analyzed_iff_analysis_message (s : SessionState)
    (hs : Reachable s) :
    (s.image_analyzed = true ↔
      ∃ m ∈ s.messages, m.role = Role.assistant ∧ m.fromAnalysis = true) ∧
    (∀ insp o ev, s.image_analyzed = false →
      (renderPass insp o ev s).1.image_analyzed = true →
      ∃ img, ev = Event.analyze img) ∧
    (∀ insp o ev, s.image_analyzed = true →
      (renderPass insp o ev s).1.image_analyzed = false →
      ev = Event.clearChat ∧ (renderPass insp o ev s).1.messages = []) := by
  refine ⟨(reachable_inv s hs).1, ?_, ?_⟩
  · intro insp o ev hf htrue
    cases ev with
    | rerender =>
      rw [renderPass_rerender] at htrue
      have h2 : (ensureChat insp s).image_analyzed = true := htrue
      rw [ensureChat_flag, hf] at h2
      cases h2
    | clearChat =>
      rw [renderPass_clear] at htrue
      have h2 : (false : Bool) = true := htrue
      cases h2
    | analyze img => exact ⟨img, rfl⟩
    | chatSubmit p =>
      rw [renderPass_chat] at htrue
      have h2 : (chatPass insp o p (ensureChat insp s)).1.image_analyzed =
        true := htrue
      rw [chatPass_flag, ensureChat_flag, hf] at h2
      cases h2
    | uploadDecodeFail =>
      rw [renderPass_uploadFail] at htrue
      have h2 : (ensureChat insp s).image_analyzed = true := htrue
      rw [ensureChat_flag, hf] at h2
      cases h2
  · intro insp o ev hflag hfalse
    cases ev with
    | rerender =>
      rw [renderPass_rerender] at hfalse
      have h2 : (ensureChat insp s).image_analyzed = false := hfalse
      rw [ensureChat_flag, hflag] at h2
      cases h2
    | clearChat => exact ⟨rfl, rfl⟩
    | analyze img =>
      rw [renderPass_analyze] at hfalse
      have hef : (ensureChat insp s).image_analyzed = true := by
        rw [ensureChat_flag]; exact hflag
      rw [analyzePass_of_true insp o img _ hef] at hfalse
      have h2 : (ensureChat insp s).image_analyzed = false := hfalse
      rw [ensureChat_flag, hflag] at h2
      cases h2
    | chatSubmit p =>
      rw [renderPass_chat] at hfalse
      have h2 : (chatPass insp o p (ensureChat insp s)).1.image_analyzed =
        false := hfalse
      rw [chatPass_flag, ensureChat_flag, hflag] at h2
      cases h2
    | uploadDecodeFail =>
      rw [renderPass_uploadFail] at hfalse
      have h2 : (ensureChat insp s).image_analyzed = false := hfalse
      rw [ensureChat_flag, hflag] at h2
      cases h2

/-- Witness for C1: the invariant instantiated at the initial state. -/
theorem image_analyzed_iff_analysis_message_witness :
    initState.image_analyzed = true ↔
      ∃ m ∈ initState.messages,
        m.role = Role.assistant ∧ m.fromAnalysis = true :=
  (image_analyzed_iff_analysis_message initState Reachable.init).1

/-- C2 counterexample: from the reachable post-analysis state, a chat
submission whose `send_message` call fails (here: no credential) leaves the
session with `messages` changed — the user turn was appended at line 91
before the failing call at line 98 — contradicting the claim that every
collaborator failure leaves all prior session state unchanged. -/
theorem failed_send_changes_messages :
    Reachable stateA ∧
    (renderPass (mkInspector "") okOracle (Event.chatSubmit "hi") stateA).2.1 =
      Outcome.failure GeminiError.credential ∧
    (renderPass (mkInspector "") okOracle
        (Event.chatSubmit "hi") stateA).1.messages ≠ stateA.messages := by
  refine ⟨reachable_stateA, rfl, ?_⟩
  intro hx
  have h2 : ([⟨Role.assistant, "report", true⟩, ⟨Role.user, "hi", false⟩] :
      List Message) = [⟨Role.assistant, "report", true⟩] := hx
  simp at h2

/-- C2 (amended): when a collaborator call inside a render pass fails —
image decode at line 61, `analyze_image` at line 74, or `send_message` at
line 98 — the failure is the rendered outcome of that interaction and
`image_analyzed` is unchanged; `conversation_handle` is unchanged unless it
was still absent, in which case the line 52-53 initialization (which
precedes the failing call) had already installed the fresh handle; `messages`
and `current_image` are unchanged except for the failing handler's own
pre-call writes: the chat path has already appended the user turn (line 91
precedes line 98) and the analyze path has already stored the uploaded image
(line 71 precedes line 74).  The post-failure state is itself reachable, so
later interactions proceed from it. -/
theorem failure_leaves_core_state (s : SessionState) (hs : Reachable s)
    (insp : GeminiInspector) (o : ModelOracle) (ev : Event)
    (e : GeminiError)
    (hfail : (renderPass insp o ev s).2.1 = Outcome.failure e) :
    ((renderPass insp o ev s).1.chat = s.chat ∨
      (s.chat = none ∧
        (renderPass insp o ev s).1.chat = some s.nextConv)) ∧
    (renderPass insp o ev s).1.image_analyzed = s.image_analyzed ∧
    ((∃ img, ev = Event.analyze img ∧
        (renderPass insp o ev s).1.messages = s.messages ∧
        (renderPass insp o ev s).1.current_image = some img) ∨
      (∃ p, ev = Event.chatSubmit p ∧
        (renderPass insp o ev s).1.messages =
          s.messages ++ [⟨Role.user, p, false⟩] ∧
        (renderPass insp o ev s).1.current_image = s.current_image) ∨
      (ev = Event.uploadDecodeFail ∧
        (renderPass insp o ev s).1.messages = s.messages ∧
        (renderPass insp o ev s).1.current_image = s.current_image)) ∧
    Reachable (renderPass insp o ev s).1 := by
  cases ev with
  | rerender =>
    rw [renderPass_rerender] at hfail
    have h2 : Outcome.nothing = Outcome.failure e := hfail
    cases h2
  | clearChat =>
    rw [renderPass_clear] at hfail
    have h2 : Outcome.nothing = Outcome.failure e := hfail
    cases h2
  | analyze img =>
    rw [renderPass_analyze] at hfail
    obtain ⟨conv, hcc⟩ := ensureChat_chat insp s
    cases hf : (ensureChat insp s).image_analyzed with
    | true =>
      rw [analyzePass_of_true insp o img _ hf] at hfail
      have h2 : Outcome.nothing = Outcome.failure e := hfail
      cases h2
    | false =>
      cases hr : insp.analyze_image o img conv with
      | ok report =>
        rw [analyzePass_ok insp o img _ conv report hf hcc hr] at hfail
        have h2 : Outcome.reply report = Outcome.failure e := hfail
        cases h2
      | error e0 =>
        have hstate : (renderPass insp o (Event.analyze img) s).1 =
            { ensureChat insp s with current_image := some img } := by
          rw [renderPass_analyze,
            analyzePass_err insp o img _ conv e0 hf hcc hr]
        refine ⟨?_, ?_, ?_, Reachable.step s insp o (Event.analyze img) hs⟩
        · cases hcs : s.chat with
          | some c =>
            refine Or.inl ?_
            rw [hstate]
            show (ensureChat insp s).chat = some c
            rw [ensureChat_of_some insp s c hcs]
            exact hcs
          | none =>
            refine Or.inr ⟨rfl, ?_⟩
            rw [hstate]
            show (ensureChat insp s).chat = some s.nextConv
            rw [ensureChat_of_none insp s hcs]
        · rw [hstate]
          show (ensureChat insp s).image_analyzed = s.image_analyzed
          exact ensureChat_flag insp s
        · refine Or.inl ⟨img, rfl, ?_, ?_⟩
          · rw [hstate]
            show (ensureChat insp s).messages = s.messages
            exact ensureChat_messages insp s
          · rw [hstate]
  | chatSubmit p =>
    rw [renderPass_chat] at hfail
    obtain ⟨conv, hcc⟩ := ensureChat_chat insp s
    cases hf : (ensureChat insp s).image_analyzed with
    | false =>
      rw [chatPass_of_false insp o p _ hf] at hfail
      have h2 : Outcome.nothing = Outcome.failure e := hfail
      cases h2
    | true =>
      cases hr : insp.send_message o conv p with
      | ok response =>
        rw [chatPass_ok insp o p _ conv response hf hcc hr] at hfail
        have h2 : Outcome.reply response = Outcome.failure e := hfail
        cases h2
      | error e0 =>
        have hstate : (renderPass insp o (Event.chatSubmit p) s).1 =
            { ensureChat insp s with
                messages := (ensureChat insp s).messages ++
                  [⟨Role.user, p, false⟩] } := by
          rw [renderPass_chat, chatPass_err insp o p _ conv e0 hf hcc hr]
        refine ⟨?_, ?_, ?_,
          Reachable.step s insp o (Event.chatSubmit p) hs⟩
        · cases hcs : s.chat with
          | some c =>
            refine Or.inl ?_
            rw [hstate]
            show (ensureChat insp s).chat = some c
            rw [ensureChat_of_some insp s c hcs]
            exact hcs
          | none =>
            refine Or.inr ⟨rfl, ?_⟩
            rw [hstate]
            show (ensureChat insp s).chat = some s.nextConv
            rw [ensureChat_of_none insp s hcs]
        · rw [hstate]
          show (ensureChat insp s).image_analyzed = s.image_analyzed
          exact ensureChat_flag insp s
        · refine Or.inr (Or.inl ⟨p, rfl, ?_, ?_⟩)
          · rw [hstate]
            show (ensureChat insp s).messages ++ [⟨Role.user, p, false⟩] =
              s.messages ++ [⟨Role.user, p, false⟩]
            rw [ensureChat_messages]
          · rw [hstate]
            show (ensureChat insp s).current_image = s.current_image
            exact ensureChat_image insp s
  | uploadDecodeFail =>
    refine ⟨?_, ?_, Or.inr (Or.inr ⟨rfl, ?_, ?_⟩),
      Reachable.step s insp o Event.uploadDecodeFail hs⟩
    · cases hcs : s.chat with
      | some c =>
        refine Or.inl ?_
        rw [renderPass_uploadFail]
        show (ensureChat insp s).chat = some c
        rw [ensureChat_of_some insp s c hcs]
        exact hcs
      | none =>
        refine Or.inr ⟨rfl, ?_⟩
        rw [renderPass_uploadFail]
        show (ensureChat insp s).chat = some s.nextConv
        rw [ensureChat_of_none insp s hcs]
    · rw [renderPass_uploadFail]
      show (ensureChat insp s).image_analyzed = s.image_analyzed
      exact ensureChat_flag insp s
    · rw [renderPass_uploadFail]
      show (ensureChat insp s).messages = s.messages
      exact ensureChat_messages insp s
    · rw [renderPass_uploadFail]
      show (ensureChat insp s).current_image = s.current_image
      exact ensureChat_image insp s

/-- Witness for C2 (amended): the first-run no-credential analyze is a
failing pass — with the conversation handle initialized by line 52-53
before the failing call — and the theorem applies to it, here giving the
unchanged analyzed flag. -/
theorem failure_leaves_core_state_witness :
    (renderPass GeminiInspector.mkDefault okOracle
        (Event.analyze 0) initState).1.image_analyzed =
      initState.image_analyzed :=
  (failure_leaves_core_state initState Reachable.init
    GeminiInspector.mkDefault okOracle (Event.analyze 0)
    GeminiError.credential rfl).2.1

/-- C3: the Inspector is constructible with no credential, and an analyze
interaction run with the credential-less Inspector renders a credential-kind
failure, leaves `messages` unchanged and keeps `image_analyzed` false. -/
theorem no_credential_analyze_fails (s : SessionState) (o : ModelOracle)
    (img : Image) (h : s.image_analyzed = false) :
    GeminiInspector.mkDefault.api_key = none ∧
    (renderPass GeminiInspector.mkDefault o (Event.analyze img) s).2.1 =
      Outcome.failure GeminiError.credential ∧
    (renderPass GeminiInspector.mkDefault o
        (Event.analyze img) s).1.messages = s.messages ∧
    (renderPass GeminiInspector.mkDefault o
        (Event.analyze img) s).1.image_analyzed = false := by
  have hef : (ensureChat GeminiInspector.mkDefault s).image_analyzed =
      false := by
    rw [ensureChat_flag]; exact h
  obtain ⟨conv, hcc⟩ := ensureChat_chat GeminiInspector.mkDefault s
  have hr : GeminiInspector.mkDefault.analyze_image o img conv =
      .error .credential := rfl
  have heq := analyzePass_err GeminiInspector.mkDefault o img
    (ensureChat GeminiInspector.mkDefault s) conv GeminiError.credential
    hef hcc hr
  refine ⟨rfl, ?_, ?_, ?_⟩
  · rw [renderPass_analyze, heq]
  · rw [renderPass_analyze, heq]
    show (ensureChat GeminiInspector.mkDefault s).messages = s.messages
    exact ensureChat_messages GeminiInspector.mkDefault s
  · rw [renderPass_analyze, heq]
    show (ensureChat GeminiInspector.mkDefault s).image_analyzed = false
    exact hef

/-- Witness for C3: the credential-less analyze interaction from the initial
state renders a credential failure. -/
theorem no_credential_analyze_fails_witness :
    (renderPass GeminiInspector.mkDefault okOracle
        (Event.analyze 0) initState).2.1 =
      Outcome.failure GeminiError.credential :=
  (no_credential_analyze_fails initState okOracle 0 rfl).2.1

/-- C4: a clear-chat interaction empties `messages`, clears
`image_analyzed`, replaces `conversation_handle` with the freshly started
conversation (distinct from the active handle, by the allocator invariant),
and leaves `current_image` unchanged. -/
theorem clear_chat_resets_conversation (s : SessionState) (hs : Reachable s)
    (insp : GeminiInspector) (o : ModelOracle) :
    (renderPass insp o Event.clearChat s).1.messages = [] ∧
    (renderPass insp o Event.clearChat s).1.image_analyzed = false ∧
    (renderPass insp o Event.clearChat s).1.current_image =
      s.current_image ∧
    (renderPass insp o Event.clearChat s).1.chat = some s.nextConv ∧
    ∀ c, s.chat = some c → s.nextConv ≠ c := by
  refine ⟨rfl, rfl, rfl, rfl, ?_⟩
  intro c hcx
  exact ne_of_gt ((reachable_inv s hs).2.2.2 c hcx)

/-- Witness for C4: clearing from the initial state empties the
transcript. -/
theorem clear_chat_resets_conversation_witness :
    (renderPass GeminiInspector.mkDefault okOracle
        Event.clearChat initState).1.messages = [] :=
  (clear_chat_resets_conversation initState Reachable.init
    GeminiInspector.mkDefault okOracle).1

/-- C5: while `image_analyzed` is false, a chat submission invokes no
`send_message` on any Inspector — the gating is the store's flag, not the
Inspector — and the pass changes nothing beyond the line 52 chat
initialization, rendering no reply. -/
theorem chat_input_gated_on_flag (s : SessionState) (insp : GeminiInspector)
    (o : ModelOracle) (p : String) (h : s.image_analyzed = false) :
    InspectorCall.sendMessage ∉
      (renderPass insp o (Event.chatSubmit p) s).2.2 ∧
    (renderPass insp o (Event.chatSubmit p) s).1 = ensureChat insp s ∧
    (renderPass insp o (Event.chatSubmit p) s).2.1 = Outcome.nothing := by
  have hef : (ensureChat insp s).image_analyzed = false := by
    rw [ensureChat_flag]; exact h
  have heq := chatPass_of_false insp o p (ensureChat insp s) hef
  refine ⟨?_, ?_, ?_⟩
  · rw [renderPass_chat, heq]
    show InspectorCall.sendMessage ∉ ensureCalls s ++ []
    cases hc : s.chat <;> simp [ensureCalls, hc]
  · rw [renderPass_chat, heq]
  · rw [renderPass_chat, heq]

/-- Witness for C5: from the initial state (flag false), a chat submission
makes no `send_message` call. -/
theorem chat_input_gated_on_flag_witness :
    InspectorCall.sendMessage ∉
      (renderPass GeminiInspector.mkDefault okOracle
        (Event.chatSubmit "q") initState).2.2 :=
  (chat_input_gated_on_flag initState GeminiInspector.mkDefault okOracle
    "q" rfl).1

/-- C6: a sequence of `append` calls extends `messages` by exactly the
called entries in call order, one at the end per call; prior entries are
never mutated, reordered or removed. -/
theorem append_preserves_order (s : SessionState)
    (calls : List (Role × String × Bool)) :
    (applyAppends s calls).messages =
      s.messages ++ calls.map (fun c => Message.mk c.1 c.2.1 c.2.2) := by
  induction calls generalizing s with
  | nil => simp [applyAppends]
  | cons c rest ih =>
    show (applyAppends (s.append c.1 c.2.1 c.2.2) rest).messages = _
    rw [ih]
    show (s.messages ++ [Message.mk c.1 c.2.1 c.2.2]) ++ _ = _
    rw [List.append_assoc]
    rfl

/-- C7: on the empty transcript the document export produces exactly the
title block — the title paragraph and its spacer — and nothing else. -/
theorem render_document_empty :
    render_document [] =
      [Flowable.para "Construction Invoice/Estimate Analysis Report"
        title_style,
       Flowable.spacer 1 12] := rfl

lemma drop_three (x y z : Flowable) (l : List Flowable) (n : Nat) :
    (x :: y :: z :: l).drop (n + 3) = l.drop n := rfl

lemma take_three (x y z : Flowable) (l : List Flowable) :
    (x :: y :: z :: l).take 3 = [x, y, z] := rfl

lemma docBlocks_length (msgs : List Message) :
    (docBlocks msgs).length = 3 * msgs.length := by
  induction msgs with
  | nil => rfl
  | cons m rest ih =>
    show (msgFlowables m ++ docBlocks rest).length = 3 * (rest.length + 1)
    rw [List.length_append, ih]
    show 3 + 3 * rest.length = 3 * (rest.length + 1)
    omega

lemma docBlocks_drop (msgs : List Message) (i : Nat) (hi : i < msgs.length) :
    (docBlocks msgs).drop (3 * i) =
      msgFlowables (msgs.get ⟨i, hi⟩) ++ docBlocks (msgs.drop (i + 1)) := by
  induction msgs generalizing i with
  | nil => exact absurd hi (Nat.not_lt_zero i)
  | cons m rest ih =>
    cases i with
    | zero =>
      show (docBlocks (m :: rest)).drop 0 = msgFlowables m ++ docBlocks rest
      rfl
    | succ n =>
      have hn : n < rest.length := Nat.lt_of_succ_lt_succ hi
      have h1 : (docBlocks (m :: rest)).drop (3 * (n + 1)) =
          (docBlocks rest).drop (3 * n) := by
        rw [show 3 * (n + 1) = 3 * n + 3 by omega]
        exact drop_three _ _ _ _ _
      rw [h1, ih n hn]
      rfl

/-- C8: the document export opens with the title block, and for each message
of the transcript, in original order, contributes one styled block — the
upper-cased role label and the content in the role's style, closed by a
spacer — at the corresponding offset; the user and assistant styles differ,
and the page geometry is a fixed constant independent of the transcript. -/
theorem render_document_structure (msgs : List Message) (i : Nat)
    (hi : i < msgs.length) :
    (render_document msgs).take 2 = titleFlowables ∧
    (render_document msgs).length = 2 + 3 * msgs.length ∧
    ((render_document msgs).drop (2 + 3 * i)).take 3 =
      [Flowable.para ((msgs.get ⟨i, hi⟩).role.upper ++ ":")
          (roleStyle (msgs.get ⟨i, hi⟩).role),
       Flowable.para (msgs.get ⟨i, hi⟩).content
          (roleStyle (msgs.get ⟨i, hi⟩).role),
       Flowable.spacer 1 6] ∧
    roleStyle Role.user ≠ roleStyle Role.assistant ∧
    (build_doc msgs).1 = docGeometry := by
  refine ⟨rfl, ?_, ?_, by decide, rfl⟩
  · show (titleFlowables ++ docBlocks msgs).length = 2 + 3 * msgs.length
    rw [List.length_append, docBlocks_length]
    rfl
  · have h2 : (render_document msgs).drop (2 + 3 * i) =
        (docBlocks msgs).drop (3 * i) := by
      show (titleFlowables ++ docBlocks msgs).drop (2 + 3 * i) = _
      rw [show 2 + 3 * i = 3 * i + 2 by omega]
      rfl
    rw [h2, docBlocks_drop msgs i hi]
    exact take_three _ _ _ _

/-- Witness for C8: the block of the second message of a two-message
transcript sits right after the first block and uses the assistant style. -/
theorem render_document_structure_witness :
    ((render_document [⟨Role.user, "q", false⟩,
        ⟨Role.assistant, "a", false⟩]).drop 5).take 3 =
      [Flowable.para ("ASSISTANT" ++ ":") assistant_style,
       Flowable.para "a" assistant_style,
       Flowable.spacer 1 6] := by
  have h := (render_document_structure
    [⟨Role.user, "q", false⟩, ⟨Role.assistant, "a", false⟩] 1
    (by decide)).2.2.1
  simpa [Role.upper, roleStyle] using h

/-- C9: the session-state init block is idempotent — running it twice gives
the same state as running it once — and on a fresh session it establishes
the four defaults, while a present key is never overwritten. -/
theorem get_or_init_idempotent (s : RawSessionState) :
    get_or_init (get_or_init s) = get_or_init s ∧
    get_or_init emptyRawState =
      { chat := some none, messages := some [],
        image_analyzed := some false, current_image := some none } ∧
    (get_or_init s).chat = s.chat.or (some none) ∧
    (get_or_init s).messages = s.messages.or (some []) ∧
    (get_or_init s).image_analyzed = s.image_analyzed.or (some false) ∧
    (get_or_init s).current_image = s.current_image.or (some none) := by
  refine ⟨rfl, rfl, ?_, ?_, ?_, ?_⟩
  · cases h : s.chat <;> simp [get_or_init, h]
  · cases h : s.messages <;> simp [get_or_init, h]
  · cases h : s.image_analyzed <;> simp [get_or_init, h]
  · cases h : s.current_image <;> simp [get_or_init, h]

/-- C10: in every reachable state with a non-empty transcript, the first
message is assistant-authored (the analysis report). -/
theorem first_message_assistant (s : SessionState) (hs : Reachable s)
    (hm : s.messages ≠ []) :
    (s.messages.head hm).role = Role.assistant :=
  (reachable_inv s hs).2.2.1 (s.messages.head hm) (List.head?_eq_head hm)

/-- Witness for C10: the post-analysis state opens with the assistant
report. -/
theorem first_message_assistant_witness :
    (stateA.messages.head (List.cons_ne_nil _ _)).role = Role.assistant :=
  first_message_assistant stateA reachable_stateA (List.cons_ne_nil _ _)
